import Mathlib

/-!
Shallow embedding of the layertwo/aws-security-research CDK application.

The repository declares AWS resources (buckets, a CodeBuild/CodePipeline
stack, an autoscaling fleet, a Kinesis Firehose delivery stream).  Each
construct call is modelled as a pure Lean function producing a descriptor
record; enum-valued CDK arguments become inductive types; CDK Duration
values are modelled as a number of seconds.
-/

deriving instance DecidableEq for Except

namespace Aws

/-- Python str.lower over ASCII names, computable in the kernel. -/
def py_lower (s : String) : String := String.mk (s.data.map Char.toLower)

/-- CDK Duration.seconds, modelled as seconds. -/
def duration_seconds (n : Nat) : Nat := n

/-- CDK Duration.minutes, modelled as seconds. -/
def duration_minutes (n : Nat) : Nat := n * 60

/-- CDK Duration.days, modelled as seconds. -/
def duration_days (n : Nat) : Nat := n * 86400

/-- aws_cdk.aws_s3.BlockPublicAccess values used by the repository. -/
inductive BlockPublicAccess
  | BLOCK_ALL
  | BLOCK_ACLS
  deriving DecidableEq, Repr

/-- aws_cdk.aws_s3.BucketEncryption values. -/
inductive BucketEncryption
  | S3_MANAGED
  | KMS_MANAGED
  | UNENCRYPTED
  deriving DecidableEq, Repr

/-- aws_cdk.RemovalPolicy values. -/
inductive RemovalPolicy
  | RETAIN
  | DESTROY
  deriving DecidableEq, Repr

/-- aws_cdk.aws_s3.StorageClass values used by the repository. -/
inductive StorageClass
  | ONE_ZONE_INFREQUENT_ACCESS
  | GLACIER
  deriving DecidableEq, Repr

/-- aws_cdk.aws_s3.Transition: a lifecycle storage-class transition. -/
structure Transition where
  storage_class : StorageClass
  transition_after : Nat
  deriving DecidableEq, Repr

/-- aws_cdk.aws_s3.LifecycleRule (only the transitions field is used). -/
structure LifecycleRule where
  transitions : List Transition
  deriving DecidableEq, Repr

/-- The bucket descriptor produced by a Bucket construct call: the keyword
arguments that lib/aws_common/s3.py SecureBucket passes to aws_s3.Bucket. -/
structure BucketProps where
  bucket_name : String
  block_public_access : BlockPublicAccess
  encryption : BucketEncryption
  enforce_ssl : Bool
  versioned : Bool
  removal_policy : RemovalPolicy
  lifecycle_rules : List LifecycleRule
  deriving DecidableEq, Repr

namespace S3

/-- The extra keyword arguments (kwargs) that callers in this repository
actually pass through SecureBucket to Bucket: only lifecycle_rules. -/
structure SecureBucketKwargs where
  lifecycle_rules : List LifecycleRule := []
  deriving DecidableEq, Repr

/-- Python `bucket_name or bucket_id`: an empty or absent string falls back. -/
def strOr (a : Option String) (b : String) : String :=
  match a with
  | some s => if s = "" then b else s
  | none => b

/-- lib/aws_common/s3.py SecureBucket.__init__: fixes the security settings
and forwards the rest. -/
def SecureBucket (bucket_id : String) (bucket_name : Option String)
    (kwargs : SecureBucketKwargs) : BucketProps :=
  { bucket_name := strOr bucket_name bucket_id,
    block_public_access := BlockPublicAccess.BLOCK_ALL,
    encryption := BucketEncryption.S3_MANAGED,
    enforce_ssl := true,
    versioned := true,
    removal_policy := RemovalPolicy.RETAIN,
    lifecycle_rules := kwargs.lifecycle_rules }

end S3

namespace MercuryCodeBuild

/-- aws_cdk.aws_codebuild.LinuxBuildImage values used by the repository. -/
inductive LinuxBuildImage
  | AMAZON_LINUX_2_4
  | AMAZON_LINUX_2_ARM_2
  deriving DecidableEq, Repr

/-- aws_cdk.aws_codebuild.ComputeType values. -/
inductive ComputeType
  | SMALL
  | MEDIUM
  | LARGE
  deriving DecidableEq, Repr

/-- aws_cdk.aws_codebuild.BuildEnvironment. -/
structure BuildEnvironment where
  build_image : LinuxBuildImage
  compute_type : ComputeType
  deriving DecidableEq, Repr

/-- aws_cdk.aws_codebuild.Artifacts.s3 arguments. -/
structure S3ArtifactsProps where
  bucket : String
  include_build_id : Bool
  package_zip : Bool
  deriving DecidableEq, Repr

/-- The project descriptor produced by codebuild.Project in
MercuryCodeBuild.build_project. -/
structure Project where
  project_id : String
  project_name : String
  concurrent_build_limit : Nat
  environment : BuildEnvironment
  artifacts : S3ArtifactsProps
  deriving DecidableEq, Repr

/-- The lifecycle_rules argument of MercuryCodeBuild.build_bucket. -/
def codebuild_lifecycle_rules : List LifecycleRule :=
  [ { transitions :=
        [ { storage_class := StorageClass.ONE_ZONE_INFREQUENT_ACCESS,
            transition_after := duration_days 30 } ] } ]

/-- MercuryCodeBuild.build_bucket: a SecureBucket with a 30-day transition. -/
def build_bucket (bucket_id : String) (bucket_name : String) : BucketProps :=
  S3.SecureBucket bucket_id (some bucket_name)
    { lifecycle_rules := codebuild_lifecycle_rules }

/-- self.artifacts_bucket built in MercuryCodeBuild.__init__. -/
def artifacts_bucket : BucketProps :=
  build_bucket "MercuryArtifactBucket" "mercury-codebuild-artifacts"

/-- self.package_bucket built in MercuryCodeBuild.__init__. -/
def package_bucket : BucketProps :=
  build_bucket "MercuryPackageBucket" "mercury-package-bucket"

/-- The local `environments` dictionary of build_project; Python dict lookup
becomes an Option-valued function. -/
def environments (arch : String) : Option LinuxBuildImage :=
  if arch = "x86" then some LinuxBuildImage.AMAZON_LINUX_2_4
  else if arch = "arm" then some LinuxBuildImage.AMAZON_LINUX_2_ARM_2
  else none

/-- MercuryCodeBuild.build_project: `environments[arch]` raises KeyError for
any other key, modelled as Except.error, before any project is built. -/
def build_project (arch : String) : Except String Project :=
  match environments arch with
  | none => Except.error ("KeyError: " ++ arch)
  | some image =>
      Except.ok
        { project_id := "MercuryProject" ++ arch.capitalize,
          project_name := "mercury-codebuild-" ++ arch,
          concurrent_build_limit := 1,
          environment := { build_image := image, compute_type := ComputeType.SMALL },
          artifacts :=
            { bucket := artifacts_bucket.bucket_name,
              include_build_id := false,
              package_zip := false } }

/-- codepipeline.Artifact names used in MercuryCodeBuild.__init__. -/
def source_output : String := "SourceArtifact"

/-- The build stage output artifact name. -/
def build_output : String := "MercuryBuildArtifact"

/-- A pipeline action: its name, the artifact names it consumes and
produces, and the named resources its configuration points at. -/
structure PipelineAction where
  action_name : String
  inputs : List String
  outputs : List String
  resources : List String
  deriving DecidableEq, Repr

/-- codepipeline.Pipeline.add_stage argument pair. -/
structure StageDef where
  stage_name : String
  actions : List PipelineAction
  deriving DecidableEq, Repr

/-- build_output.at_path("mercury-1.0.rpm").location: a deploy-time token
naming a file inside a pipeline artifact. -/
inductive ArtifactLocation
  | at_path (artifact : String) (file_name : String)
  deriving DecidableEq, Repr

/-- ssm.StringParameter arguments used in MercuryCodeBuild.__init__. -/
structure SsmStringParameter where
  parameter_name : String
  string_value : ArtifactLocation
  deriving DecidableEq, Repr

/-- Everything MercuryCodeBuild.__init__ constructs: the two buckets, the
pipeline stages, the projects instantiated, the SSM parameter and the
principals granted write access to it. -/
structure MercuryCodeBuildStack where
  artifacts_bucket : BucketProps
  package_bucket : BucketProps
  pipeline_name : String
  pipeline_artifact_bucket : String
  stages : List StageDef
  projects : List Project
  ssm_parameter : SsmStringParameter
  ssm_write_grants : List String
  deriving DecidableEq, Repr

/-- MercuryCodeBuild.__init__, following the source line by line.  The one
build_project call uses arch="arm"; its possible KeyError propagates. -/
def mercury_codebuild_stack : Except String MercuryCodeBuildStack := do
  let ab := build_bucket "MercuryArtifactBucket" "mercury-codebuild-artifacts"
  let pb := build_bucket "MercuryPackageBucket" "mercury-package-bucket"
  let source_action : PipelineAction :=
    { action_name := "GitHub_Source",
      inputs := [],
      outputs := [source_output],
      resources := ["github:cisco/mercury:main"] }
  let project ← build_project "arm"
  let build_action : PipelineAction :=
    { action_name := "CodeBuild",
      inputs := [source_output],
      outputs := [build_output],
      resources := [project.project_name] }
  let ssm_parameter : SsmStringParameter :=
    { parameter_name := "MercurySsmParameter",
      string_value := ArtifactLocation.at_path build_output "mercury-1.0.rpm" }
  let s3_deploy_action : PipelineAction :=
    { action_name := "S3Deploy",
      inputs := [build_output],
      outputs := [],
      resources := [pb.bucket_name] }
  pure
    { artifacts_bucket := ab,
      package_bucket := pb,
      pipeline_name := "MercuryPipeline",
      pipeline_artifact_bucket := ab.bucket_name,
      stages :=
        [ { stage_name := "Source", actions := [source_action] },
          { stage_name := "Build", actions := [build_action] },
          { stage_name := "Deploy", actions := [s3_deploy_action] } ],
      projects := [project],
      ssm_parameter := ssm_parameter,
      ssm_write_grants := [project.project_name] }

end MercuryCodeBuild

namespace MercuryStack

/-- self.name set in MercuryStack.__init__. -/
def name : String := "Mercury"

/-- MercuryStack.build_instance_role: role id, name and assumed-by
principal are fixed; the role is identified by its name. -/
def build_instance_role : String := name ++ "InstanceRole"

/-- MercuryStack.build_datalake_bucket: a SecureBucket built with only a
construct id and no bucket_name. -/
def build_datalake_bucket : BucketProps :=
  S3.SecureBucket (py_lower name ++ "-collection-datalake") none {}

/-- A CloudFormationInit element: shell command, file write, or
service-enable directive. -/
inductive InitElement
  | init_command (cmd : String)
  | init_file (file_path : String) (content : String)
  | init_service (service : String) (enabled : Bool)
  deriving DecidableEq, Repr

/-- The rpm_name local of instance_init_config. -/
def rpm_name : String := "mercury-2.5.16-1.el7.aarch64.rpm"

/-- The rpm_path local of instance_init_config. -/
def rpm_path : String := "mercury-package/" ++ rpm_name

/-- Bucket.s3_url_for_object(key). -/
def s3_url_for_object (bucket_name key : String) : String :=
  "s3://" ++ bucket_name ++ "/" ++ key

/-- MercuryStack.fluent_bit_config: an f-string over self.region and
self.firehose.delivery_stream_name. -/
def fluent_bit_config (region delivery_stream_name : String) : String :=
  "\n        [INPUT]\n            Name tail\n            tag mercury.data\n            Path /usr/local/var/mercury/fingerprint.json*\n            Parser json\n\n        [OUTPUT]\n            Name  kinesis_firehose\n            Match mercury.*\n            region "
    ++ region
    ++ "\n            delivery_stream "
    ++ delivery_stream_name
    ++ "\n        "

/-- MercuryStack.fluent_bit_parsers_conf. -/
def fluent_bit_parsers_conf : String :=
  "[PARSER]\n            Name   json\n            Format json\n            Time_Key event_start\n            Time_Format %s.%6\"\n        "

/-- MercuryStack.instance_init_config: the ordered CloudFormationInit
elements, parameterized by the artifacts bucket name, the stack region and
the delivery-stream name (read from self members in the source). -/
def instance_init_config (artifacts_bucket_name region firehose_name : String) :
    List InitElement :=
  [ InitElement.init_command
      "curl https://raw.githubusercontent.com/fluent/fluent-bit/master/install.sh | sh",
    InitElement.init_command "yum update -y",
    InitElement.init_command "yum install htop fluent-bit -y",
    InitElement.init_command
      ("aws s3 cp " ++ s3_url_for_object artifacts_bucket_name rpm_path
        ++ " /tmp/" ++ rpm_name),
    InitElement.init_command ("rpm -i /tmp/" ++ rpm_name),
    InitElement.init_command "sed -i \x27s/ens33/eth0/g\x27 /etc/mercury/mercury.cfg",
    InitElement.init_command "sed -i \x27s/cpu/1/g\x27 /etc/mercury/mercury.cfg",
    InitElement.init_file "/etc/fluent-bit/fluent-bit.conf"
      (fluent_bit_config region firehose_name),
    InitElement.init_file "/etc/fluent-bit/parsers.conf" fluent_bit_parsers_conf,
    InitElement.init_service "fluent-bit" true,
    InitElement.init_service "mercury" true ]

/-- The shell commands of an init element list, in order. -/
def init_commands (elems : List InitElement) : List String :=
  elems.filterMap fun e =>
    match e with
    | InitElement.init_command c => some c
    | _ => none

/-- The AutoScalingGroup descriptor built by MercuryStack.build_asg
(durations in seconds). -/
structure AutoScalingGroupProps where
  min_capacity : Nat
  max_capacity : Nat
  cooldown : Nat
  max_instance_lifetime : Nat
  signals_timeout : Nat
  init : List InitElement
  deriving DecidableEq, Repr

/-- The delivery-stream name f-string of build_firehose_stream. -/
def stream_id : String := name ++ "SensorStream"

/-- MercuryStack.build_asg. -/
def build_asg (artifacts_bucket_name region : String) : AutoScalingGroupProps :=
  { min_capacity := 1,
    max_capacity := 2,
    cooldown := duration_seconds 30,
    max_instance_lifetime := duration_days 1,
    signals_timeout := duration_minutes 15,
    init := instance_init_config artifacts_bucket_name region stream_id }

/-- aws_kinesisfirehose_destinations_alpha Compression values. -/
inductive Compression
  | GZIP
  | SNAPPY
  | ZIP
  deriving DecidableEq, Repr

/-- The S3Bucket destination of build_firehose_stream.  The source keyword
arguments data_output_prefix and error_output_prefix are the two key
patterns. -/
structure S3BucketDestination where
  bucket_name : String
  compression : Compression
  data_output_key_pattern : String
  error_output_key_pattern : String
  buffering_interval : Nat
  deriving DecidableEq, Repr

/-- The DeliveryStream descriptor of build_firehose_stream. -/
structure DeliveryStreamProps where
  delivery_stream_name : String
  destinations : List S3BucketDestination
  deriving DecidableEq, Repr

/-- The `partition` local of build_firehose_stream
(braces written as \x7b and \x7d). -/
def partition_pattern : String :=
  "year=!\x7btimestamp:yyyy\x7d/month=!\x7btimestamp:MM\x7d/day=!\x7btimestamp:dd\x7d/"

/-- MercuryStack.build_firehose_stream. -/
def build_firehose_stream (datalake_bucket_name : String) : DeliveryStreamProps :=
  { delivery_stream_name := stream_id,
    destinations :=
      [ { bucket_name := datalake_bucket_name,
          compression := Compression.GZIP,
          data_output_key_pattern := "sensors/" ++ partition_pattern,
          error_output_key_pattern :=
            "sensors-failures/!\x7bfirehose:error-output-type\x7d/" ++ partition_pattern,
          buffering_interval := duration_seconds 300 } ] }

/-- Everything MercuryStack.__init__ constructs, with the read and
put-records grants it issues as (resource name, grantee role) pairs. -/
structure MercuryStackState where
  instance_role : String
  datalake_bucket : BucketProps
  artifacts_bucket : BucketProps
  firehose : DeliveryStreamProps
  asg : AutoScalingGroupProps
  read_grants : List (String × String)
  put_records_grants : List (String × String)
  deriving DecidableEq, Repr

/-- MercuryStack.__init__, following the source order: role, buckets,
firehose, autoscaling group, then the two grants. -/
def mercury_stack (artifacts_bucket : BucketProps) (region : String) :
    MercuryStackState :=
  let role := build_instance_role
  let datalake := build_datalake_bucket
  let firehose := build_firehose_stream datalake.bucket_name
  { instance_role := role,
    datalake_bucket := datalake,
    artifacts_bucket := artifacts_bucket,
    firehose := firehose,
    asg := build_asg artifacts_bucket.bucket_name region,
    read_grants := [(artifacts_bucket.bucket_name, role)],
    put_records_grants := [(firehose.delivery_stream_name, role)] }

end MercuryStack

/-- app.py wiring: MercuryStack receives codebuild.artifacts_bucket. -/
def app_mercury_stack (region : String) : Except String MercuryStack.MercuryStackState :=
  MercuryCodeBuild.mercury_codebuild_stack.map fun cb =>
    MercuryStack.mercury_stack cb.artifacts_bucket region

/-- Substring test on character lists. -/
def listHasSub (pat : List Char) : List Char → Bool
  | [] => pat.isEmpty
  | c :: rest => pat.isPrefixOf (c :: rest) || listHasSub pat rest

/-- Substring test on strings. -/
def hasSubstr (s pat : String) : Bool := listHasSub pat.toList s.toList

/-- The project that build_project yields for arch arm. -/
def arm_project : MercuryCodeBuild.Project :=
  { project_id := "MercuryProjectArm",
    project_name := "mercury-codebuild-arm",
    concurrent_build_limit := 1,
    environment :=
      { build_image := MercuryCodeBuild.LinuxBuildImage.AMAZON_LINUX_2_ARM_2,
        compute_type := MercuryCodeBuild.ComputeType.SMALL },
    artifacts :=
      { bucket := "mercury-codebuild-artifacts",
        include_build_id := false,
        package_zip := false } }

/-- C1: every bucket built through the SecureBucket helper, whatever the
construct id, bucket name and other keyword arguments, has public-access
block BLOCK_ALL, S3-managed encryption, SSL enforcement, versioning and a
retain removal policy; the artifact, package and datalake buckets are all
built through that helper. -/
theorem C1_secure_bucket_invariants :
    (∀ (bucket_id : String) (bucket_name : Option String) (kwargs : S3.SecureBucketKwargs),
      (S3.SecureBucket bucket_id bucket_name kwargs).block_public_access
          = BlockPublicAccess.BLOCK_ALL ∧
      (S3.SecureBucket bucket_id bucket_name kwargs).encryption
          = BucketEncryption.S3_MANAGED ∧
      (S3.SecureBucket bucket_id bucket_name kwargs).enforce_ssl = true ∧
      (S3.SecureBucket bucket_id bucket_name kwargs).versioned = true ∧
      (S3.SecureBucket bucket_id bucket_name kwargs).removal_policy
          = RemovalPolicy.RETAIN) ∧
    MercuryCodeBuild.artifacts_bucket =
      S3.SecureBucket "MercuryArtifactBucket" (some "mercury-codebuild-artifacts")
        { lifecycle_rules := MercuryCodeBuild.codebuild_lifecycle_rules } ∧
    MercuryCodeBuild.package_bucket =
      S3.SecureBucket "MercuryPackageBucket" (some "mercury-package-bucket")
        { lifecycle_rules := MercuryCodeBuild.codebuild_lifecycle_rules } ∧
    MercuryStack.build_datalake_bucket =
      S3.SecureBucket (py_lower MercuryStack.name ++ "-collection-datalake") none {} :=
  ⟨fun _ _ _ => ⟨rfl, rfl, rfl, rfl, rfl⟩, rfl, rfl, rfl⟩

/-- C2 counterexample: with REGION us-east-1 and the delivery stream named
MercurySensorStream, the bootstrap command sequence contains no export line
at all, and no command mentions REGION or FIREHOSE; so no exported
environment lines precede the artifact-fetch command. -/
theorem C2_counterexample_no_export_lines :
    (MercuryStack.init_commands
        (MercuryStack.instance_init_config "mercury-codebuild-artifacts" "us-east-1"
          "MercurySensorStream")).all
      (fun c => !(hasSubstr c "export") && !(hasSubstr c "REGION")
        && !(hasSubstr c "FIREHOSE")) = true := by decide

set_option maxRecDepth 4000 in
/-- C2 amended: the bootstrap procedure does not export REGION or FIREHOSE
as environment variables; the region and the delivery-stream name
(MercurySensorStream) are instead embedded in the fluent-bit configuration
file content, and the init element writing that file comes after the
artifact-fetch command (element 7 versus element 3). -/
theorem C2_region_and_stream_in_fluent_bit_config :
    MercuryStack.stream_id = "MercurySensorStream" ∧
    hasSubstr (MercuryStack.fluent_bit_config "us-east-1" "MercurySensorStream")
      "region us-east-1" = true ∧
    hasSubstr (MercuryStack.fluent_bit_config "us-east-1" "MercurySensorStream")
      "delivery_stream MercurySensorStream" = true ∧
    (MercuryStack.instance_init_config "mercury-codebuild-artifacts" "us-east-1"
        "MercurySensorStream").get? 3 =
      some (MercuryStack.InitElement.init_command
        "aws s3 cp s3://mercury-codebuild-artifacts/mercury-package/mercury-2.5.16-1.el7.aarch64.rpm /tmp/mercury-2.5.16-1.el7.aarch64.rpm") ∧
    (MercuryStack.instance_init_config "mercury-codebuild-artifacts" "us-east-1"
        "MercurySensorStream").get? 7 =
      some (MercuryStack.InitElement.init_file "/etc/fluent-bit/fluent-bit.conf"
        (MercuryStack.fluent_bit_config "us-east-1" "MercurySensorStream")) := by
  decide

/-- C3: the delivery stream has a single S3 destination whose success key
pattern contains the year, month and day partition tokens in that order,
and whose error key pattern is distinct from the success pattern, contains
an error-type token, and carries the same ordered date partition. -/
theorem C3_firehose_partition_scheme :
    ∃ dest : MercuryStack.S3BucketDestination,
      (MercuryStack.mercury_stack MercuryCodeBuild.artifacts_bucket
          "us-east-1").firehose.destinations = [dest] ∧
      (∃ s1 s2 s3 s4 : String,
        dest.data_output_key_pattern = s1 ++ "year=" ++ s2 ++ "month=" ++ s3 ++ "day=" ++ s4) ∧
      dest.error_output_key_pattern ≠ dest.data_output_key_pattern ∧
      (∃ t1 t2 : String,
        dest.error_output_key_pattern = t1 ++ "!\x7bfirehose:error-output-type\x7d" ++ t2) ∧
      (∃ u1 u2 u3 u4 : String,
        dest.error_output_key_pattern = u1 ++ "year=" ++ u2 ++ "month=" ++ u3 ++ "day=" ++ u4) :=
  ⟨_, rfl,
    ⟨"sensors/", "!\x7btimestamp:yyyy\x7d/", "!\x7btimestamp:MM\x7d/",
      "!\x7btimestamp:dd\x7d/", by decide⟩,
    by decide,
    ⟨"sensors-failures/",
      "/year=!\x7btimestamp:yyyy\x7d/month=!\x7btimestamp:MM\x7d/day=!\x7btimestamp:dd\x7d/",
      by decide⟩,
    ⟨"sensors-failures/!\x7bfirehose:error-output-type\x7d/", "!\x7btimestamp:yyyy\x7d/",
      "!\x7btimestamp:MM\x7d/", "!\x7btimestamp:dd\x7d/", by decide⟩⟩

/-- C4: every project that build_project yields, for any architecture
argument, has its concurrent-build limit set to exactly 1. -/
theorem C4_concurrent_build_limit_one (arch : String) (p : MercuryCodeBuild.Project)
    (h : MercuryCodeBuild.build_project arch = Except.ok p) :
    p.concurrent_build_limit = 1 := by
  unfold MercuryCodeBuild.build_project at h
  split at h
  · exact Except.noConfusion h
  · injection h with h2
    subst h2
    rfl

/-- C4 witness: the arm project exists and its limit is 1. -/
theorem C4_concurrent_build_limit_one_witness :
    arm_project.concurrent_build_limit = 1 :=
  C4_concurrent_build_limit_one "arm" arm_project (by decide)

/-- C5 counterexample: the stack instantiates only the arm project; no
project with the x86 build image is ever constructed, so there is no one
instance per target architecture. -/
theorem C5_counterexample_no_x86_project :
    MercuryCodeBuild.mercury_codebuild_stack.map
        (fun s => s.projects.map MercuryCodeBuild.Project.project_name) =
      Except.ok ["mercury-codebuild-arm"] ∧
    MercuryCodeBuild.mercury_codebuild_stack.map
        (fun s => (s.projects.map fun p => p.environment.build_image).contains
          MercuryCodeBuild.LinuxBuildImage.AMAZON_LINUX_2_4) =
      Except.ok false := by decide

/-- C5 amended: the stack instantiates exactly one build project, for the
ARM architecture with the ARM build image; the project factory also maps
x86 to the x86 build image but the stack never instantiates it. -/
theorem C5_single_arm_project :
    MercuryCodeBuild.mercury_codebuild_stack.map (fun s => s.projects) =
      Except.ok [arm_project] ∧
    arm_project.environment.build_image =
      MercuryCodeBuild.LinuxBuildImage.AMAZON_LINUX_2_ARM_2 ∧
    MercuryCodeBuild.environments "x86" =
      some MercuryCodeBuild.LinuxBuildImage.AMAZON_LINUX_2_4 := by decide

/-- C6 counterexample: the deploy stage action consumes the build output
artifact and targets the package bucket; no stage action reads or
references the SSM parameter MercurySsmParameter. -/
theorem C6_counterexample_deploy_ignores_ssm :
    MercuryCodeBuild.mercury_codebuild_stack.map
        (fun s => (s.stages.filter fun st => st.stage_name == "Deploy").map
          fun st => st.actions.map fun a => (a.inputs, a.resources)) =
      Except.ok [[(["MercuryBuildArtifact"], ["mercury-package-bucket"])]] ∧
    MercuryCodeBuild.mercury_codebuild_stack.map
        (fun s => s.stages.all fun st => st.actions.all fun a =>
          !(a.resources.contains "MercurySsmParameter")
            && !(a.inputs.contains "MercurySsmParameter")) =
      Except.ok true := by decide

/-- C6 amended: a single string parameter holds the build-output artifact
location after the build stage, and the build project is granted write
access to it; but the deploy stage locates the artifact through the build
output artifact directly and does not read the parameter. -/
theorem C6_ssm_parameter_written_not_read :
    MercuryCodeBuild.mercury_codebuild_stack.map (fun s => s.ssm_parameter) =
      Except.ok
        { parameter_name := "MercurySsmParameter",
          string_value :=
            MercuryCodeBuild.ArtifactLocation.at_path "MercuryBuildArtifact"
              "mercury-1.0.rpm" } ∧
    MercuryCodeBuild.mercury_codebuild_stack.map (fun s => s.ssm_write_grants) =
      Except.ok ["mercury-codebuild-arm"] ∧
    MercuryCodeBuild.mercury_codebuild_stack.map
        (fun s => s.stages.map fun st =>
          (st.stage_name, st.actions.map MercuryCodeBuild.PipelineAction.inputs)) =
      Except.ok
        [("Source", [[]]), ("Build", [["SourceArtifact"]]),
          ("Deploy", [["MercuryBuildArtifact"]])] := by decide

/-- C7: for every artifacts bucket and region the fleet group descriptor
sets the maximum instance lifetime, and it equals one day (86400 seconds),
so it never exceeds the one-day churn interval. -/
theorem C7_max_instance_lifetime_one_day (b : BucketProps) (region : String) :
    (MercuryStack.mercury_stack b region).asg.max_instance_lifetime = duration_days 1 ∧
    duration_days 1 = 86400 :=
  ⟨rfl, rfl⟩

/-- C8: with the app wiring, the instance role is granted read only on the
CodeBuild artifacts bucket, the bootstrap fetch command targets exactly
that bucket and the mercury-package rpm key, and the package bucket that
the deploy stage publishes to is never among the read grants. -/
theorem C8_fleet_reads_codebuild_artifacts_only :
    (app_mercury_stack "us-east-1").map (fun st => st.read_grants) =
      Except.ok [("mercury-codebuild-artifacts", "MercuryInstanceRole")] ∧
    (app_mercury_stack "us-east-1").map
        (fun st => (MercuryStack.init_commands st.asg.init).contains
          "aws s3 cp s3://mercury-codebuild-artifacts/mercury-package/mercury-2.5.16-1.el7.aarch64.rpm /tmp/mercury-2.5.16-1.el7.aarch64.rpm") =
      Except.ok true ∧
    (app_mercury_stack "us-east-1").map
        (fun st => (st.read_grants.map Prod.fst).contains
          MercuryCodeBuild.package_bucket.bucket_name) =
      Except.ok false := by decide

/-- C9: build_project fails with a KeyError for any architecture other than
x86 and arm, before constructing any project, and maps x86 and arm to the
x86 and ARM build images respectively. -/
theorem C9_build_project_domain (arch : String) :
    (arch ≠ "x86" → arch ≠ "arm" →
      MercuryCodeBuild.build_project arch = Except.error ("KeyError: " ++ arch)) ∧
    (MercuryCodeBuild.build_project "x86").map (fun p => p.environment.build_image) =
      Except.ok MercuryCodeBuild.LinuxBuildImage.AMAZON_LINUX_2_4 ∧
    (MercuryCodeBuild.build_project "arm").map (fun p => p.environment.build_image) =
      Except.ok MercuryCodeBuild.LinuxBuildImage.AMAZON_LINUX_2_ARM_2 := by
  refine ⟨?_, by decide, by decide⟩
  intro h1 h2
  unfold MercuryCodeBuild.build_project MercuryCodeBuild.environments
  rw [if_neg h1, if_neg h2]

/-- C9 witness: the undefined architecture mips yields the KeyError. -/
theorem C9_build_project_domain_witness :
    MercuryCodeBuild.build_project "mips" = Except.error ("KeyError: " ++ "mips") :=
  (C9_build_project_domain "mips").1 (by decide) (by decide)

/-- C10: a SecureBucket built without an explicit bucket name is named by
its construct id; in particular the datalake bucket is named
mercury-collection-datalake. -/
theorem C10_bucket_name_defaults_to_id (bucket_id : String)
    (kwargs : S3.SecureBucketKwargs) :
    (S3.SecureBucket bucket_id none kwargs).bucket_name = bucket_id ∧
    MercuryStack.build_datalake_bucket.bucket_name = "mercury-collection-datalake" :=
  ⟨rfl, by decide⟩

end Aws
